import Mathlib

set_option maxHeartbeats 1000000

/-!
Shallow embedding of the remi-card Home Assistant Lovelace card
(sguernion/remi-card).

The embedding follows the TypeScript sources:

* `src/src/remi-card.ts` (class RemiCard) and its alarm-clock variant in
  `src/unnamed/part_000`: configuration handling (`setConfig`), entity-id
  derivation (`_updateEntities`), state lookup (`_getState`,
  `_getFaceState`, ...), the command dispatcher (`_handleLightControl`,
  `_handleSliderChange`, `_handleSliderRelease`), and the render functions
  (`_renderHeader`, `_renderLightControls`, `_renderFaceSelector`,
  `_renderTemperatureGraph`, `_renderConnectivity`, `_renderAlarmClocks`,
  `render`).
* `src/unnamed/part_001` (face-images.ts): `FACE_NAMES`, `FACE_ICONS`,
  `getFaceIcon`.

Host state (`hass.states`) is modelled as an association list from entity
id to an entity-state record holding exactly the fields the card reads.
JavaScript truthiness checks (`!config.device_id`,
`lightState?.attributes.brightness ? _ : 50`, `FACE_NAMES[x] || x`, ...)
are modelled explicitly (undefined-or-empty for strings, zero counted as
falsy for numbers).  Numbers flowing through the card are machine
integers in 0..255 resp. 0..100, modelled as `Nat`; the one floating-point
expression, `Math.round((b / 255) * 100)`, is modelled as exact rational
rounding (see `mathRound255`), which agrees with the float64 evaluation on
the whole native brightness range because the value is never within 1/510
of a rounding boundary while the float error is below 2^-40.
-/

/-- A Home Assistant entity state object, restricted to the fields the
card actually reads: the `state` string and the attributes
`brightness`, `name`, `days`, `days_indices`, `face`, `volume`
(the last five are only read for alarm `time.*` entities). -/
structure HassEntity where
  state : String
  brightness : Option Nat := none
  attrName : Option String := none
  days : Option (List String) := none
  daysIndices : Option (List Nat) := none
  face : Option String := none
  volume : Option Nat := none
  deriving DecidableEq

/-- The host state store `hass.states`: a keyed mapping from entity id to
entity state, modelled as an association list. -/
structure Hass where
  states : List (String × HassEntity)
  deriving DecidableEq

/-- `Object.keys(this.hass.states)`. -/
def Hass.keys (h : Hass) : List String := h.states.map (fun p => p.1)

/-- `this.hass.states[entityId]`: object key lookup, `none` models
`undefined`. -/
def Hass.lookup (h : Hass) (entityId : String) : Option HassEntity :=
  (h.states.find? (fun p => p.1 == entityId)).map (fun p => p.2)

/-- The raw configuration object handed to `setConfig`.  Every field may
be absent at runtime (the host passes arbitrary YAML-derived objects),
so each is an `Option`. -/
structure RawConfig where
  device_id : Option String := none
  device_name : Option String := none
  title : Option String := none
  show_controls : Option Bool := none
  show_face_selector : Option Bool := none
  show_temperature_graph : Option Bool := none
  show_connectivity : Option Bool := none
  show_alarm_clocks : Option Bool := none
  hours_to_show : Option Nat := none
  deriving DecidableEq

/-- The stored configuration `this._config` after `setConfig` merged in
the defaults (interface RemiCardConfig). -/
structure RemiCardConfig where
  device_id : String
  device_name : Option String := none
  title : Option String := none
  show_controls : Bool := true
  show_face_selector : Bool := true
  show_temperature_graph : Bool := true
  show_connectivity : Bool := true
  show_alarm_clocks : Bool := true
  hours_to_show : Nat := 24
  deriving DecidableEq

/-- `this._config.device_name || deviceId` - JavaScript `||` treats the
empty string as falsy. -/
def effectiveDeviceName (c : RemiCardConfig) : String :=
  match c.device_name with
  | some n => if n.isEmpty then c.device_id else n
  | none => c.device_id

/-- The entity-id record `this._entities` (interface RemiEntity, alarm
variant). -/
structure RemiEntity where
  face : Option String := none
  faceSelect : Option String := none
  light : Option String := none
  temperature : Option String := none
  connectivity : Option String := none
  rssi : Option String := none
  alarms : List String := []
  deriving DecidableEq

/-- Initial value of `this._entities` (all null, empty alarm list). -/
def initEntities : RemiEntity := {}

/-- Model of JavaScript `String.prototype.toLowerCase` (character-wise
lowering; faithful on the ASCII device names the card deals with). -/
def strToLower (s : String) : String := ⟨s.data.map Char.toLower⟩

/-- Model of JavaScript `String.prototype.startsWith`. -/
def strStartsWith (s pre : String) : Bool := pre.data.isPrefixOf s.data

/-- Model of JavaScript `String.prototype.endsWith`. -/
def strEndsWith (s suf : String) : Bool := suf.data.isSuffixOf s.data

/-- `_updateEntities` (alarm-clock variant, `src/unnamed/part_000` lines
267-294; the `src/src/remi-card.ts` variant is identical minus the alarm
scan): derives the six fixed entity ids from `device_id` by template
substitution and scans all known ids for
`time.${deviceName.toLowerCase()}_` ... `_time` alarm entities. -/
def updateEntities (h : Hass) (c : RemiCardConfig) : RemiEntity :=
  let deviceId := c.device_id
  let deviceName := effectiveDeviceName c
  let alarmEntities := h.keys.filter (fun entityId =>
    strStartsWith entityId ("time." ++ strToLower deviceName ++ "_") &&
    strEndsWith entityId "_time")
  { face := some ("sensor.remi_" ++ deviceId ++ "_face")
    faceSelect := some ("select.remi_" ++ deviceId ++ "_face")
    light := some ("light.remi_" ++ deviceId ++ "_night_light")
    temperature := some ("sensor.remi_" ++ deviceId ++ "_temperature")
    connectivity := some ("binary_sensor.remi_" ++ deviceId ++ "_connectivity")
    rssi := some ("sensor.remi_" ++ deviceId ++ "_rssi")
    alarms := alarmEntities }

/-- The mutable component state: `this.hass`, `this._config`,
`this._entities`.  `hass` and `_config` are unset until the host assigns
them. -/
structure CardState where
  hass : Option Hass := none
  config : Option RemiCardConfig := none
  entities : RemiEntity := initEntities
  deriving DecidableEq

/-- The guarded entity update: `_updateEntities` returns without touching
`this._entities` when `this.hass` or `this._config` is unset. -/
def updateEntitiesCard (st : CardState) : CardState :=
  match st.hass, st.config with
  | some h, some c => { st with entities := updateEntities h c }
  | _, _ => st

/-- JavaScript falsiness of the `device_id` field: absent (`undefined`)
or the empty string. -/
def deviceIdFalsy (o : Option String) : Bool :=
  match o with
  | none => true
  | some s => s.isEmpty

/-- `setConfig` (`src/src/remi-card.ts` lines 58-73 and
`src/unnamed/part_000` lines 198-214): throws when `!config.device_id`,
otherwise stores the defaults-merged configuration and recomputes the
entity ids.  The spread `{ defaults, ...config }` lets every field
present on the raw object override its default. -/
def setConfig (st : CardState) (c : RawConfig) : Except String CardState :=
  match c.device_id with
  | none => .error "You must specify a device_id"
  | some deviceId =>
    if deviceId.isEmpty then .error "You must specify a device_id"
    else
      let merged : RemiCardConfig :=
        { device_id := deviceId
          device_name := c.device_name
          title := c.title
          show_controls := c.show_controls.getD true
          show_face_selector := c.show_face_selector.getD true
          show_temperature_graph := c.show_temperature_graph.getD true
          show_connectivity := c.show_connectivity.getD true
          show_alarm_clocks := c.show_alarm_clocks.getD true
          hours_to_show := c.hours_to_show.getD 24 }
      .ok (updateEntitiesCard { st with config := some merged })

/-- `_getState`: returns `undefined` for a null id, otherwise the store
lookup (the embedding only renders in states where `this.hass` is set,
so the hass argument is total here). -/
def getState (h : Hass) (entityId : Option String) : Option HassEntity :=
  match entityId with
  | none => none
  | some i => h.lookup i

/-- `_getFaceState`: the face sensor state, or null when the entity is
missing or unavailable. -/
def getFaceState (h : Hass) (e : RemiEntity) : Option String :=
  match getState h e.face with
  | none => none
  | some fe => if fe.state = "unavailable" then none else some fe.state

/-- `Math.round((brightness / 255) * 100)` for a native brightness value,
as exact rational rounding `floor(100 * b / 255 + 1/2)`.  No tie is
possible (`200 * b` is even, `510 * k + 255` odd), and the distance to
every rounding boundary is at least `1/510`, far above the float64
error, so this agrees with the JavaScript evaluation on `0..255`. -/
def mathRound255 (b : Nat) : Nat := (200 * b + 255) / 510

/-- The outbound service calls the card can issue
(`this.hass.callService`). -/
inductive ServiceCall where
  | turnOff (entityId : String)
  | turnOn (entityId : String) (brightnessPct : Nat)
  | selectOption (entityId : String) (option : String)
  deriving DecidableEq

/-- `_handleLightControl`: no call when the light id is null; `turn_off`
for brightness 0, else `turn_on` with `brightness_pct`.  The result is
the list of service calls issued (in order). -/
def handleLightControl (e : RemiEntity) (brightness : Nat) : List ServiceCall :=
  match e.light with
  | none => []
  | some lightId =>
    if brightness = 0 then [ServiceCall.turnOff lightId]
    else [ServiceCall.turnOn lightId brightness]

/-- `_handleFaceSelect`: a single `select_option` call when the selector
id is set. -/
def handleFaceSelect (e : RemiEntity) (face : String) : List ServiceCall :=
  match e.faceSelect with
  | none => []
  | some selId => [ServiceCall.selectOption selId face]

/-- `_handleSliderChange` (continuous `input` events): visual feedback
only, no service call. -/
def handleSliderChange (_e : RemiEntity) (_value : Nat) : List ServiceCall := []

/-- `_handleSliderRelease` (the `change` event): dispatches the parsed
final slider value (an integer in 0..100, the slider range) to
`_handleLightControl`. -/
def handleSliderRelease (e : RemiEntity) (value : Nat) : List ServiceCall :=
  if value = 0 then handleLightControl e 0
  else handleLightControl e value

/-- The five face image assets imported in face-images.ts
(`src/unnamed/part_001`).  The imported values are bundler-produced URL
strings whose concrete contents are unknown, so the embedding is
parametrised over them. -/
structure FaceAssets where
  sleepyFace : String
  awakeFace : String
  semiAwakeFace : String
  smilyFace : String
  blankFace : String
  deriving DecidableEq

/-- The `FACE_ICONS` object of face-images.ts, as an association list in
declaration order. -/
def FACE_ICONS (a : FaceAssets) : List (String × String) :=
  [("sleepyFace", a.sleepyFace), ("awakeFace", a.awakeFace),
   ("semiAwakeFace", a.semiAwakeFace), ("smilyFace", a.smilyFace),
   ("blankFace", a.blankFace)]

/-- `getFaceIcon` (face-images.ts, `src/unnamed/part_001` lines 39-46):
object lookup, returning the primary icon when truthy (defined and
non-empty) and `FACE_ICONS.blankFace` otherwise. -/
def getFaceIcon (a : FaceAssets) (faceState : String) : String :=
  match (FACE_ICONS a).find? (fun p => p.1 == faceState) with
  | some p => if p.2.isEmpty then a.blankFace else p.2
  | none => a.blankFace

/-- The `FACE_NAMES` object (French display names). -/
def FACE_NAMES : List (String × String) :=
  [("sleepyFace", "Sommeil"), ("awakeFace", "Éveil"),
   ("semiAwakeFace", "Semi-éveil"), ("smilyFace", "Sourire"),
   ("blankFace", "Neutre")]

/-- `FACE_NAMES[faceState]` object lookup. -/
def faceNameLookup (faceState : String) : Option String :=
  (FACE_NAMES.find? (fun p => p.1 == faceState)).map (fun p => p.2)

/-- `faceState ? FACE_NAMES[faceState] || faceState : 'Inconnu'` from
`_renderHeader` (`src/src/remi-card.ts` line 203; `||` falls back on an
undefined or empty lookup result). -/
def headerFaceName (h : Hass) (e : RemiEntity) : String :=
  match getFaceState h e with
  | some fs =>
    (match faceNameLookup fs with
     | some n => if n.isEmpty then fs else n
     | none => fs)
  | none => "Inconnu"

/-- The temperature segment of the header status line: appended only
when the temperature entity exists and is not unavailable
(`src/src/remi-card.ts` lines 206-208). -/
def tempSegment (h : Hass) (e : RemiEntity) : String :=
  match getState h e.temperature with
  | some t => if t.state = "unavailable" then "" else t.state ++ "°C"
  | none => ""

/-- The `statusText` string built by `_renderHeader`
(`src/src/remi-card.ts` lines 205-219), mirroring the sequential
appends of the source: optional temperature segment, then
" • faceName", then either " • percent%" (light on with a defined
brightness), nothing (light on without brightness), or " • Éteint". -/
def renderHeaderStatus (h : Hass) (e : RemiEntity) : String :=
  let faceName := headerFaceName h e
  let statusText := ""
  let statusText :=
    match getState h e.temperature with
    | some t => if t.state = "unavailable" then statusText
                else statusText ++ t.state ++ "°C"
    | none => statusText
  let statusText := statusText ++ " • " ++ faceName
  match getState h e.light with
  | some ls =>
    if ls.state = "on" then
      match ls.brightness with
      | some b => statusText ++ " • " ++ toString (mathRound255 b) ++ "%"
      | none => statusText
    else statusText ++ " • Éteint"
  | none => statusText ++ " • Éteint"

/-- The data-dependent content of the rendered header section. -/
structure HeaderView where
  lightOn : Bool
  faceImage : String
  faceAlt : String
  title : String
  status : String
  deriving DecidableEq

/-- `_renderHeader` as a view record (always rendered). -/
def renderHeader (a : FaceAssets) (h : Hass) (c : RemiCardConfig)
    (e : RemiEntity) : HeaderView :=
  let faceState := getFaceState h e
  let lightState := getState h e.light
  { lightOn := match lightState with
               | some ls => ls.state = "on"
               | none => false
    faceImage := match faceState with
                 | some fs => getFaceIcon a fs
                 | none => getFaceIcon a "blankFace"
    faceAlt := headerFaceName h e
    title := "Rémi " ++ effectiveDeviceName c
    status := renderHeaderStatus h e }

/-- One button of the face selector. -/
structure FaceOptionView where
  value : String
  icon : String
  label : String
  active : Bool
  deriving DecidableEq

/-- The face-selector section content. -/
structure FaceSelectorView where
  buttons : List FaceOptionView
  deriving DecidableEq

/-- The five selector options of `_renderFaceSelector`
(`src/src/remi-card.ts` lines 277-283), in source order. -/
def faceOptions : List (String × String) :=
  [("sleepyFace", "Sommeil"), ("semiAwakeFace", "Semi-éveil"),
   ("awakeFace", "Éveil"), ("smilyFace", "Sourire"),
   ("blankFace", "Neutre")]

/-- `_renderFaceSelector`: empty template (`none`) when the select entity
is missing, otherwise one button per option with the active flag on the
current face. -/
def renderFaceSelector (a : FaceAssets) (h : Hass) (e : RemiEntity) :
    Option FaceSelectorView :=
  match getState h e.faceSelect with
  | none => none
  | some fs =>
    some { buttons := faceOptions.map (fun o =>
      { value := o.1, icon := getFaceIcon a o.1, label := o.2,
        active := fs.state == o.1 }) }

/-- `lightState?.attributes.brightness ? Math.round(...) : 50` from
`_renderLightControls` (`src/src/remi-card.ts` lines 240-242): the
JavaScript condition is falsy when the light entity is missing, the
brightness attribute is absent, or it equals 0. -/
def lightCurrentBrightness (h : Hass) (e : RemiEntity) : Nat :=
  match getState h e.light with
  | none => 50
  | some ls =>
    match ls.brightness with
    | none => 50
    | some b => if b = 0 then 50 else mathRound255 b

/-- The light-controls section content: toggle state, slider value and
the percentage label (both show `currentBrightness`), and the disabled
flag. -/
structure LightControlsView where
  isOn : Bool
  sliderValue : Nat
  percentLabel : Nat
  disabled : Bool
  deriving DecidableEq

/-- `_renderLightControls` (always renders its section). -/
def renderLightControls (h : Hass) (e : RemiEntity) : LightControlsView :=
  let isOn := match getState h e.light with
              | some ls => ls.state = "on"
              | none => false
  let currentBrightness := lightCurrentBrightness h e
  { isOn := isOn
    sliderValue := currentBrightness
    percentLabel := currentBrightness
    disabled := !isOn }

/-- One alarm row of `_renderAlarmClocks` (the raw entity data that feeds
the row; textual day formatting is localization glue elided here, and no
claim concerns it). -/
structure AlarmRowView where
  time : String
  name : String
  daysIndices : List Nat
  hasDays : Bool
  face : Option String
  brightness : Option Nat
  volume : Option Nat
  deriving DecidableEq

/-- The alarm-clocks section content: one optional row per resolved alarm
id (a row is `none` when its entity is missing or unavailable). -/
structure AlarmsView where
  rows : List (Option AlarmRowView)
  deriving DecidableEq

/-- `_renderAlarmClocks` (`src/unnamed/part_000` lines 627-709): empty
template when the alarm list is empty; each row self-suppresses when its
entity is missing or unavailable; `attributes.name || 'Alarm'` falls
back on an absent or empty name. -/
def renderAlarmClocks (h : Hass) (e : RemiEntity) : Option AlarmsView :=
  if e.alarms.isEmpty then none
  else some { rows := e.alarms.map (fun alarmId =>
    match h.lookup alarmId with
    | none => none
    | some st =>
      if st.state = "unavailable" then none
      else some
        { time := st.state
          name := match st.attrName with
                  | some n => if n.isEmpty then "Alarm" else n
                  | none => "Alarm"
          daysIndices := st.daysIndices.getD []
          hasDays := !(st.days.getD []).isEmpty
          face := st.face
          brightness := st.brightness
          volume := st.volume }) }

/-- The temperature-graph section content: hours label and the displayed
state (the section renders even when the entity is missing or
unavailable; a missing entity displays a literal undefined marker,
modelled as `none`). -/
structure TempGraphView where
  hoursToShow : Nat
  display : Option String
  deriving DecidableEq

/-- `_renderTemperatureGraph`: empty template only when the temperature
id is null (never the case after `_updateEntities`). -/
def renderTemperatureGraph (h : Hass) (c : RemiCardConfig)
    (e : RemiEntity) : Option TempGraphView :=
  match e.temperature with
  | none => none
  | some tempId =>
    some { hoursToShow := c.hours_to_show
           display := (h.lookup tempId).map (fun s => s.state) }

/-- The connectivity section content: connection flag and the optional
signal-strength sub-row text. -/
structure ConnectivityView where
  connected : Bool
  rssiRow : Option String
  deriving DecidableEq

/-- `_renderConnectivity` (`src/src/remi-card.ts` lines 320-348): empty
template when the connectivity entity is missing or unavailable;
otherwise the section with a signal-strength sub-row exactly when the
RSSI entity exists and is not unavailable. -/
def renderConnectivity (h : Hass) (e : RemiEntity) : Option ConnectivityView :=
  match getState h e.connectivity with
  | none => none
  | some cs =>
    if cs.state = "unavailable" then none
    else
      some { connected := cs.state = "on"
             rssiRow :=
               match getState h e.rssi with
               | some rs =>
                 if rs.state = "unavailable" then none
                 else some (rs.state ++ " dBm")
               | none => none }

/-- The whole rendered card: the header plus the five optional sections,
in the source order of `render` (`src/unnamed/part_000` lines 716-731).
A `none` section is an empty render (either its `show_*` flag is false
or the section self-suppressed). -/
structure CardView where
  header : HeaderView
  faceSelector : Option FaceSelectorView
  lightControls : Option LightControlsView
  alarmClocks : Option AlarmsView
  temperatureGraph : Option TempGraphView
  connectivity : Option ConnectivityView
  deriving DecidableEq

/-- `render` with `this._config` and `this.hass` set: each `show_*` flag
independently gates its section. -/
def renderCard (a : FaceAssets) (h : Hass) (c : RemiCardConfig)
    (e : RemiEntity) : CardView :=
  { header := renderHeader a h c e
    faceSelector := if c.show_face_selector then renderFaceSelector a h e else none
    lightControls := if c.show_controls then some (renderLightControls h e) else none
    alarmClocks := if c.show_alarm_clocks then renderAlarmClocks h e else none
    temperatureGraph := if c.show_temperature_graph then renderTemperatureGraph h c e else none
    connectivity := if c.show_connectivity then renderConnectivity h e else none }

/-- The six fixed resolved identifiers of a RemiEntity record, in
declaration order (the alarm list is separate). -/
def resolvedIds (e : RemiEntity) : List (Option String) :=
  [e.face, e.faceSelect, e.light, e.temperature, e.connectivity, e.rssi]

/-- Two strings with equal underlying character lists are equal. -/
theorem stringDataInj {a b : String} (h : a.data = b.data) : a = b := by
  cases a; cases b; exact congrArg String.mk h

/-- Strings of the form prefix-middle-suffix differ whenever the two
fixed prefixes differ at some character position. -/
theorem frontCharNe {p q x y s t : String} (i : Nat)
    (hip : i < p.data.length) (hiq : i < q.data.length)
    (hne : p.data[i]? ≠ q.data[i]?) : p ++ x ++ s ≠ q ++ y ++ t := by
  intro h
  apply hne
  have hd : p.data ++ (x.data ++ s.data) = q.data ++ (y.data ++ t.data) := by
    have h2 := congrArg String.data h
    simpa [List.append_assoc] using h2
  calc p.data[i]? = (p.data ++ (x.data ++ s.data))[i]? :=
        (List.getElem?_append_left hip).symm
    _ = (q.data ++ (y.data ++ t.data))[i]? := by rw [hd]
    _ = q.data[i]? := List.getElem?_append_left hiq

/-- Strings of the form prefix-middle-suffix differ whenever the two
fixed suffixes differ at some character position counted from the back. -/
theorem backCharNe {p q x y s t : String} (i : Nat)
    (his : i < s.data.length) (hit : i < t.data.length)
    (hne : s.data.reverse[i]? ≠ t.data.reverse[i]?) : p ++ x ++ s ≠ q ++ y ++ t := by
  intro h
  apply hne
  have hd : s.data.reverse ++ (x.data.reverse ++ p.data.reverse)
      = t.data.reverse ++ (y.data.reverse ++ q.data.reverse) := by
    have h2 := congrArg (fun z => z.data.reverse) h
    simpa [List.reverse_append, List.append_assoc] using h2
  calc s.data.reverse[i]?
      = (s.data.reverse ++ (x.data.reverse ++ p.data.reverse))[i]? :=
        (List.getElem?_append_left (by simpa using his)).symm
    _ = (t.data.reverse ++ (y.data.reverse ++ q.data.reverse))[i]? := by rw [hd]
    _ = t.data.reverse[i]? := List.getElem?_append_left (by simpa using hit)

/-- With the same fixed prefix and suffix, equality of the composites
forces equality of the middles. -/
theorem midInj {p s x y : String} (h : p ++ x ++ s = p ++ y ++ s) : x = y := by
  have hd : p.data ++ (x.data ++ s.data) = p.data ++ (y.data ++ s.data) := by
    have h2 := congrArg String.data h
    simpa [List.append_assoc] using h2
  exact stringDataInj (List.append_cancel_right (List.append_cancel_left hd))

/-- C1: for every device_id X, `_updateEntities` resolves exactly the six
identifiers obtained by substituting X into the fixed templates
sensor.remi_X_face, select.remi_X_face, light.remi_X_night_light,
sensor.remi_X_temperature, binary_sensor.remi_X_connectivity and
sensor.remi_X_rssi; and for two configurations with distinct device ids
the two six-element identifier sets are disjoint, so after changing the
device id no identifier derived from the old id remains. -/
theorem entityResolverTemplates (h h2 : Hass) (c c2 : RemiCardConfig) :
    ((updateEntities h c).face = some ("sensor.remi_" ++ c.device_id ++ "_face") ∧
     (updateEntities h c).faceSelect = some ("select.remi_" ++ c.device_id ++ "_face") ∧
     (updateEntities h c).light = some ("light.remi_" ++ c.device_id ++ "_night_light") ∧
     (updateEntities h c).temperature = some ("sensor.remi_" ++ c.device_id ++ "_temperature") ∧
     (updateEntities h c).connectivity = some ("binary_sensor.remi_" ++ c.device_id ++ "_connectivity") ∧
     (updateEntities h c).rssi = some ("sensor.remi_" ++ c.device_id ++ "_rssi")) ∧
    (c.device_id ≠ c2.device_id →
      ∀ a ∈ resolvedIds (updateEntities h c),
        ∀ b ∈ resolvedIds (updateEntities h2 c2), a ≠ b) := by
  refine ⟨⟨rfl, rfl, rfl, rfl, rfl, rfl⟩, ?_⟩
  intro hne a ha b hb
  simp only [resolvedIds, updateEntities, List.mem_cons, List.not_mem_nil,
    or_false] at ha hb
  rcases ha with rfl | rfl | rfl | rfl | rfl | rfl <;>
    rcases hb with rfl | rfl | rfl | rfl | rfl | rfl <;>
    simp only [ne_eq, Option.some.injEq] <;>
    first
      | exact fun hEq => hne (midInj hEq)
      | exact frontCharNe 0 (by decide) (by decide) (by decide)
      | exact frontCharNe 2 (by decide) (by decide) (by decide)
      | exact backCharNe 0 (by decide) (by decide) (by decide)
      | exact backCharNe 1 (by decide) (by decide) (by decide)

/-- An empty host snapshot, used by the concrete witnesses. -/
def hassEmpty : Hass := ⟨[]⟩

/-- A concrete configuration with device id "a". -/
def cfgA : RemiCardConfig := { device_id := "a" }

/-- A concrete configuration with device id "b". -/
def cfgB : RemiCardConfig := { device_id := "b" }

/-- Witness for C1 at the concrete device ids "a" and "b". -/
theorem entityResolverTemplates_witness :
    cfgA.device_id ≠ cfgB.device_id ∧
    ∀ a ∈ resolvedIds (updateEntities hassEmpty cfgA),
      ∀ b ∈ resolvedIds (updateEntities hassEmpty cfgB), a ≠ b :=
  ⟨by decide, (entityResolverTemplates hassEmpty hassEmpty cfgA cfgB).2 (by decide)⟩

/-- C2: `setConfig` fails exactly when the `device_id` field is absent or
empty, returning the error synchronously (so the stored configuration
and the entity record are left untouched, since the error carries no new
state); with a non-empty `device_id` it never throws. -/
theorem setConfigDeviceIdCheck (st : CardState) (c : RawConfig) :
    (deviceIdFalsy c.device_id = true →
      setConfig st c = .error "You must specify a device_id") ∧
    (deviceIdFalsy c.device_id = false →
      ∃ st2, setConfig st c = .ok st2) := by
  constructor
  · intro hfalsy
    match hc : c.device_id with
    | none => simp [setConfig, hc]
    | some s =>
      simp only [deviceIdFalsy, hc] at hfalsy
      simp [setConfig, hc, hfalsy]
  · intro htruthy
    match hc : c.device_id with
    | none => simp [deviceIdFalsy, hc] at htruthy
    | some s =>
      simp only [deviceIdFalsy, hc] at htruthy
      simp [setConfig, hc, htruthy]

/-- A raw configuration with an empty device id. -/
def rawEmptyId : RawConfig := { device_id := some "" }

/-- A raw configuration with a valid device id. -/
def rawGoodId : RawConfig := { device_id := some "garance" }

/-- The fresh card state. -/
def stInit : CardState := {}

/-- Witness for C2: an empty device id throws, a non-empty one does not. -/
theorem setConfigDeviceIdCheck_witness :
    setConfig stInit rawEmptyId = .error "You must specify a device_id" ∧
    ∃ st2, setConfig stInit rawGoodId = .ok st2 :=
  ⟨(setConfigDeviceIdCheck stInit rawEmptyId).1 (by decide),
   (setConfigDeviceIdCheck stInit rawGoodId).2 (by decide)⟩

/-- C3: releasing the slider at final value 0 issues exactly one
`turn_off` call on the light entity; releasing at any value 1..100
issues exactly one `turn_on` call with `brightness_pct` equal to that
value; continuous drag (`input`) events issue no service call. -/
theorem sliderReleaseCalls (e : RemiEntity) (lightId : String)
    (hl : e.light = some lightId) :
    handleSliderRelease e 0 = [ServiceCall.turnOff lightId] ∧
    (∀ v, 1 ≤ v → v ≤ 100 →
      handleSliderRelease e v = [ServiceCall.turnOn lightId v]) ∧
    (∀ v, handleSliderChange e v = []) := by
  refine ⟨?_, ?_, fun _ => rfl⟩
  · simp [handleSliderRelease, handleLightControl, hl]
  · intro v h1 _h100
    have hv : v ≠ 0 := by omega
    simp [handleSliderRelease, handleLightControl, hl, hv]

/-- Witness for C3 on the resolved entities of device "a". -/
theorem sliderReleaseCalls_witness :
    handleSliderRelease (updateEntities hassEmpty cfgA) 0
      = [ServiceCall.turnOff "light.remi_a_night_light"] ∧
    (∀ v, 1 ≤ v → v ≤ 100 →
      handleSliderRelease (updateEntities hassEmpty cfgA) v
        = [ServiceCall.turnOn "light.remi_a_night_light" v]) ∧
    (∀ v, handleSliderChange (updateEntities hassEmpty cfgA) v = []) :=
  sliderReleaseCalls (updateEntities hassEmpty cfgA) "light.remi_a_night_light" rfl

/-- C7: for a configured device name N, the resolved alarm list contains
exactly the known entity identifiers that start with "time." followed by
the lowercased device name and "_" and end with "_time"; when nothing
matches, the list is empty (the scan is total, so no error can be
raised). -/
theorem alarmScanPattern (h : Hass) (c : RemiCardConfig) (N : String)
    (hN : c.device_name = some N) (hNe : N.isEmpty = false) :
    (∀ entityId, entityId ∈ (updateEntities h c).alarms ↔
      entityId ∈ h.keys ∧
      strStartsWith entityId ("time." ++ strToLower N ++ "_") = true ∧
      strEndsWith entityId "_time" = true) ∧
    ((∀ entityId ∈ h.keys,
        ¬(strStartsWith entityId ("time." ++ strToLower N ++ "_") = true ∧
          strEndsWith entityId "_time" = true)) →
      (updateEntities h c).alarms = []) := by
  have hname : effectiveDeviceName c = N := by
    simp [effectiveDeviceName, hN, hNe]
  have halarms : (updateEntities h c).alarms
      = h.keys.filter (fun entityId =>
          strStartsWith entityId ("time." ++ strToLower N ++ "_") &&
          strEndsWith entityId "_time") := by
    rw [show (updateEntities h c).alarms = h.keys.filter (fun entityId =>
      strStartsWith entityId ("time." ++ strToLower (effectiveDeviceName c) ++ "_") &&
      strEndsWith entityId "_time") from rfl, hname]
  constructor
  · intro entityId
    rw [halarms]
    simp [List.mem_filter, Bool.and_eq_true]
  · intro hnone
    rw [halarms]
    refine List.filter_eq_nil_iff.mpr ?_
    intro entityId hid
    have hn := hnone entityId hid
    simpa [Bool.and_eq_true] using hn

/-- A host snapshot with two matching alarm entities and one
non-matching entity. -/
def hassAlarms : Hass :=
  ⟨[("time.garance_wake_time", { state := "07:30" }),
    ("time.garance_nap_time", { state := "13:00" }),
    ("sensor.remi_garance_face", { state := "sleepyFace" })]⟩

/-- A configuration for device "garance" with display name "Garance". -/
def cfgGarance : RemiCardConfig :=
  { device_id := "garance", device_name := some "Garance" }

/-- Witness for C7: the two alarm ids are found (and nothing else) for
device name "Garance". -/
theorem alarmScanPattern_witness :
    (updateEntities hassAlarms cfgGarance).alarms
        = ["time.garance_wake_time", "time.garance_nap_time"] ∧
    (∀ entityId, entityId ∈ (updateEntities hassAlarms cfgGarance).alarms ↔
      entityId ∈ hassAlarms.keys ∧
      strStartsWith entityId ("time." ++ strToLower "Garance" ++ "_") = true ∧
      strEndsWith entityId "_time" = true) :=
  ⟨by decide, (alarmScanPattern hassAlarms cfgGarance "Garance" rfl (by decide)).1⟩

/-- Appending to the empty string is the identity. -/
theorem emptyAppend (s : String) : "" ++ s = s := stringDataInj rfl

/-- C9: getFaceIcon is total.  For each of the five known face states it
returns that state's icon (the bundler-imported asset strings are
non-empty, hence truthy), and for every other string it returns the
blank-face icon - never an undefined or missing value. -/
theorem getFaceIconTotal (a : FaceAssets)
    (h1 : a.sleepyFace.isEmpty = false) (h2 : a.awakeFace.isEmpty = false)
    (h3 : a.semiAwakeFace.isEmpty = false) (h4 : a.smilyFace.isEmpty = false)
    (h5 : a.blankFace.isEmpty = false) :
    getFaceIcon a "sleepyFace" = a.sleepyFace ∧
    getFaceIcon a "awakeFace" = a.awakeFace ∧
    getFaceIcon a "semiAwakeFace" = a.semiAwakeFace ∧
    getFaceIcon a "smilyFace" = a.smilyFace ∧
    getFaceIcon a "blankFace" = a.blankFace ∧
    ∀ s, s ∉ ["sleepyFace", "awakeFace", "semiAwakeFace", "smilyFace",
              "blankFace"] →
      getFaceIcon a s = a.blankFace := by
  refine ⟨?_, ?_, ?_, ?_, ?_, ?_⟩
  · simp [getFaceIcon, FACE_ICONS, List.find?, h1]
  · simp [getFaceIcon, FACE_ICONS, List.find?, h2]
  · simp [getFaceIcon, FACE_ICONS, List.find?, h3]
  · simp [getFaceIcon, FACE_ICONS, List.find?, h4]
  · simp [getFaceIcon, FACE_ICONS, List.find?, h5]
  · intro s hs
    simp only [List.mem_cons, List.not_mem_nil, or_false, not_or] at hs
    obtain ⟨n1, n2, n3, n4, n5⟩ := hs
    have f1 : (("sleepyFace" : String) == s) = false :=
      beq_eq_false_iff_ne.mpr (Ne.symm n1)
    have f2 : (("awakeFace" : String) == s) = false :=
      beq_eq_false_iff_ne.mpr (Ne.symm n2)
    have f3 : (("semiAwakeFace" : String) == s) = false :=
      beq_eq_false_iff_ne.mpr (Ne.symm n3)
    have f4 : (("smilyFace" : String) == s) = false :=
      beq_eq_false_iff_ne.mpr (Ne.symm n4)
    have f5 : (("blankFace" : String) == s) = false :=
      beq_eq_false_iff_ne.mpr (Ne.symm n5)
    simp [getFaceIcon, FACE_ICONS, List.find?, f1, f2, f3, f4, f5]

/-- Concrete asset strings for the witnesses. -/
def assetsDemo : FaceAssets :=
  { sleepyFace := "sleepy.png", awakeFace := "awake.png",
    semiAwakeFace := "semi.png", smilyFace := "smily.png",
    blankFace := "blank.png" }

/-- Witness for C9 on concrete assets: a known state maps to its icon, an
unknown state falls back to the blank face. -/
theorem getFaceIconTotal_witness :
    getFaceIcon assetsDemo "sleepyFace" = assetsDemo.sleepyFace ∧
    getFaceIcon assetsDemo "surprisedFace" = assetsDemo.blankFace := by
  have h := getFaceIconTotal assetsDemo (by decide) (by decide) (by decide)
    (by decide) (by decide)
  exact ⟨h.1, h.2.2.2.2.2 "surprisedFace" (by decide)⟩

/-- C10: whenever the light entity's native brightness attribute is
absent or 0 (a falsy value), the slider position and the percentage
label both show the default 50, regardless of the light's state (in
particular even when it is on); so a native brightness of 0 is never
displayed as 0. -/
theorem lightControlsDefaultFifty (h : Hass) (e : RemiEntity)
    (ls : HassEntity) (hget : getState h e.light = some ls)
    (hb : ls.brightness = none ∨ ls.brightness = some 0) :
    (renderLightControls h e).sliderValue = 50 ∧
    (renderLightControls h e).percentLabel = 50 := by
  have hcb : lightCurrentBrightness h e = 50 := by
    rcases hb with hb | hb <;> simp [lightCurrentBrightness, hget, hb]
  constructor <;> simp [renderLightControls, hcb]

/-- A snapshot where the night light is on with native brightness 0. -/
def hassZeroBrightness : Hass :=
  ⟨[("light.remi_a_night_light", { state := "on", brightness := some 0 })]⟩

/-- Witness for C10: brightness 0 while on still displays 50. -/
theorem lightControlsDefaultFifty_witness :
    (renderLightControls hassZeroBrightness
        (updateEntities hassZeroBrightness cfgA)).sliderValue = 50 ∧
    (renderLightControls hassZeroBrightness
        (updateEntities hassZeroBrightness cfgA)).percentLabel = 50 :=
  lightControlsDefaultFifty hassZeroBrightness
    (updateEntities hassZeroBrightness cfgA)
    { state := "on", brightness := some 0 } (by decide) (Or.inr rfl)

/-- C4: when the light entity is on with a defined native brightness b
(0..255), the header status line ends with the rounded percentage
segment, with the percentage equal to Math.round((b / 255) * 100)
(modelled as exact rational rounding, see mathRound255); in particular
b = 128 displays 50 and b = 255 displays 100. -/
theorem headerBrightnessPercent (h : Hass) (e : RemiEntity)
    (ls : HassEntity) (b : Nat)
    (hget : getState h e.light = some ls) (hon : ls.state = "on")
    (hb : ls.brightness = some b) (_hrange : b ≤ 255) :
    renderHeaderStatus h e
      = tempSegment h e ++ " • " ++ headerFaceName h e ++ " • "
        ++ toString (mathRound255 b) ++ "%" ∧
    mathRound255 128 = 50 ∧ mathRound255 255 = 100 := by
  refine ⟨?_, by decide, by decide⟩
  cases hT : getState h e.temperature with
  | none => simp [renderHeaderStatus, tempSegment, hget, hon, hb, hT, emptyAppend]
  | some t =>
    by_cases hu : t.state = "unavailable" <;>
      simp [renderHeaderStatus, tempSegment, hget, hon, hb, hT, hu, emptyAppend]

/-- A snapshot where the night light is on with native brightness 128. -/
def hassOn128 : Hass :=
  ⟨[("light.remi_a_night_light", { state := "on", brightness := some 128 })]⟩

/-- Witness for C4 at brightness 128 (displayed as 50). -/
theorem headerBrightnessPercent_witness :
    renderHeaderStatus hassOn128 (updateEntities hassOn128 cfgA)
      = tempSegment hassOn128 (updateEntities hassOn128 cfgA) ++ " • "
        ++ headerFaceName hassOn128 (updateEntities hassOn128 cfgA) ++ " • "
        ++ toString (mathRound255 128) ++ "%" ∧
    mathRound255 128 = 50 ∧ mathRound255 255 = 100 :=
  headerBrightnessPercent hassOn128 (updateEntities hassOn128 cfgA)
    { state := "on", brightness := some 128 } 128 (by decide) rfl rfl (by decide)

/-- C5: a missing or unavailable connectivity entity suppresses the
whole connectivity section (including the signal-strength sub-row),
regardless of the RSSI entity; when the connectivity entity is present
and available, the signal-strength sub-row is present exactly when the
RSSI entity is present and not unavailable. -/
theorem connectivityGating (h : Hass) (e : RemiEntity) :
    (getState h e.connectivity = none → renderConnectivity h e = none) ∧
    (∀ cs, getState h e.connectivity = some cs → cs.state = "unavailable" →
      renderConnectivity h e = none) ∧
    (∀ cs, getState h e.connectivity = some cs → cs.state ≠ "unavailable" →
      ∃ v, renderConnectivity h e = some v ∧
        (v.rssiRow.isSome = true ↔
          ∃ rs, getState h e.rssi = some rs ∧ rs.state ≠ "unavailable")) := by
  refine ⟨?_, ?_, ?_⟩
  · intro hc
    simp [renderConnectivity, hc]
  · intro cs hc hu
    simp [renderConnectivity, hc, hu]
  · intro cs hc hu
    cases hr : getState h e.rssi with
    | none =>
      simp only [renderConnectivity, hc, if_neg hu, hr]
      refine ⟨_, rfl, ?_⟩
      simp
    | some rs =>
      by_cases hru : rs.state = "unavailable"
      · simp only [renderConnectivity, hc, if_neg hu, hr, if_pos hru]
        refine ⟨_, rfl, ?_⟩
        simp [hru]
      · simp only [renderConnectivity, hc, if_neg hu, hr, if_neg hru]
        refine ⟨_, rfl, ?_⟩
        simp [hru]

/-- A snapshot with an unavailable connectivity entity but an available
RSSI entity. -/
def hassConnUnavail : Hass :=
  ⟨[("binary_sensor.remi_a_connectivity", { state := "unavailable" }),
    ("sensor.remi_a_rssi", { state := "-60" })]⟩

/-- A snapshot with connectivity on and an available RSSI entity. -/
def hassConnOk : Hass :=
  ⟨[("binary_sensor.remi_a_connectivity", { state := "on" }),
    ("sensor.remi_a_rssi", { state := "-60" })]⟩

/-- Witness for C5: the unavailable connectivity entity kills the whole
section even though RSSI is available; the available one shows the
sub-row. -/
theorem connectivityGating_witness :
    renderConnectivity hassConnUnavail
        (updateEntities hassConnUnavail cfgA) = none ∧
    ∃ v, renderConnectivity hassConnOk (updateEntities hassConnOk cfgA)
          = some v ∧
      (v.rssiRow.isSome = true ↔
        ∃ rs, getState hassConnOk (updateEntities hassConnOk cfgA).rssi
            = some rs ∧ rs.state ≠ "unavailable") :=
  ⟨(connectivityGating hassConnUnavail
      (updateEntities hassConnUnavail cfgA)).2.1
      { state := "unavailable" } (by decide) rfl,
   (connectivityGating hassConnOk (updateEntities hassConnOk cfgA)).2.2
      { state := "on" } (by decide) (by decide)⟩

/-- A snapshot where the night light is on but its brightness attribute
is absent, with temperature and face present. -/
def hassOnNoBrightness : Hass :=
  ⟨[("sensor.remi_a_temperature", { state := "20" }),
    ("sensor.remi_a_face", { state := "sleepyFace" }),
    ("light.remi_a_night_light", { state := "on" })]⟩

/-- Counterexample to C6 as stated: with the light on but no brightness
attribute, the status line is just "20°C • Sommeil" - the third segment
is absent (neither a percentage nor the off marker), so no decomposition
with a third segment exists. -/
theorem headerThirdSegmentMissing :
    getState hassOnNoBrightness
        (updateEntities hassOnNoBrightness cfgA).light
      = some { state := "on" } ∧
    ¬ ∃ third : String,
      renderHeaderStatus hassOnNoBrightness
          (updateEntities hassOnNoBrightness cfgA)
        = tempSegment hassOnNoBrightness
            (updateEntities hassOnNoBrightness cfgA)
          ++ " • "
          ++ headerFaceName hassOnNoBrightness
               (updateEntities hassOnNoBrightness cfgA)
          ++ " • " ++ third := by
  refine ⟨by decide, ?_⟩
  rintro ⟨third, hEq⟩
  have h1 : renderHeaderStatus hassOnNoBrightness
      (updateEntities hassOnNoBrightness cfgA) = "20°C • Sommeil" := by decide
  have h2 : tempSegment hassOnNoBrightness
      (updateEntities hassOnNoBrightness cfgA) = "20°C" := by decide
  have h3 : headerFaceName hassOnNoBrightness
      (updateEntities hassOnNoBrightness cfgA) = "Sommeil" := by decide
  rw [h1, h2, h3] at hEq
  have hlen := congrArg String.length hEq
  simp only [String.length_append] at hlen
  have e1 : ("20°C • Sommeil" : String).length = 14 := by decide
  have e2 : ("20°C" : String).length = 4 := by decide
  have e3 : (" • " : String).length = 3 := by decide
  have e4 : ("Sommeil" : String).length = 7 := by decide
  rw [e1, e2, e3, e4] at hlen
  omega

/-- C6 (amended): the status line is composed in the fixed order
temperature segment (non-empty exactly when the temperature entity
exists and is available), then the face label, then a third segment
which is the brightness percentage when the light is on with a defined
brightness, the off marker when the light is not on, and which is
omitted when the light is on with an undefined brightness attribute. -/
theorem headerStatusComposition (h : Hass) (e : RemiEntity) :
    (∀ ls, getState h e.light = some ls → ls.state = "on" →
      ∀ b, ls.brightness = some b →
        renderHeaderStatus h e
          = tempSegment h e ++ " • " ++ headerFaceName h e ++ " • "
            ++ toString (mathRound255 b) ++ "%") ∧
    (∀ ls, getState h e.light = some ls → ls.state = "on" →
      ls.brightness = none →
        renderHeaderStatus h e
          = tempSegment h e ++ " • " ++ headerFaceName h e) ∧
    ((∀ ls, getState h e.light = some ls → ¬ls.state = "on") →
        renderHeaderStatus h e
          = tempSegment h e ++ " • " ++ headerFaceName h e ++ " • Éteint") ∧
    (getState h e.temperature = none → tempSegment h e = "") ∧
    (∀ t, getState h e.temperature = some t →
      (t.state = "unavailable" → tempSegment h e = "") ∧
      (t.state ≠ "unavailable" → tempSegment h e = t.state ++ "°C")) := by
  refine ⟨?_, ?_, ?_, ?_, ?_⟩
  · intro ls hget hon b hb
    cases hT : getState h e.temperature with
    | none => simp [renderHeaderStatus, tempSegment, hget, hon, hb, hT, emptyAppend]
    | some t =>
      by_cases hu : t.state = "unavailable" <;>
        simp [renderHeaderStatus, tempSegment, hget, hon, hb, hT, hu, emptyAppend]
  · intro ls hget hon hb
    cases hT : getState h e.temperature with
    | none => simp [renderHeaderStatus, tempSegment, hget, hon, hb, hT, emptyAppend]
    | some t =>
      by_cases hu : t.state = "unavailable" <;>
        simp [renderHeaderStatus, tempSegment, hget, hon, hb, hT, hu, emptyAppend]
  · intro hno
    cases hL : getState h e.light with
    | none =>
      cases hT : getState h e.temperature with
      | none => simp [renderHeaderStatus, tempSegment, hL, hT, emptyAppend]
      | some t =>
        by_cases hu : t.state = "unavailable" <;>
          simp [renderHeaderStatus, tempSegment, hL, hT, hu, emptyAppend]
    | some ls =>
      have hns := hno ls hL
      cases hT : getState h e.temperature with
      | none => simp [renderHeaderStatus, tempSegment, hL, hns, hT, emptyAppend]
      | some t =>
        by_cases hu : t.state = "unavailable" <;>
          simp [renderHeaderStatus, tempSegment, hL, hns, hT, hu, emptyAppend]
  · intro hT
    simp [tempSegment, hT]
  · intro t hT
    constructor <;> intro hu <;> simp [tempSegment, hT, hu]

/-- A snapshot where the night light is off. -/
def hassLightOff : Hass :=
  ⟨[("light.remi_a_night_light", { state := "off" })]⟩

/-- Witness for the amended C6: with the light off, the status line ends
with the off marker after the face label. -/
theorem headerStatusComposition_witness :
    renderHeaderStatus hassLightOff (updateEntities hassLightOff cfgA)
      = tempSegment hassLightOff (updateEntities hassLightOff cfgA)
        ++ " • "
        ++ headerFaceName hassLightOff (updateEntities hassLightOff cfgA)
        ++ " • Éteint" :=
  (headerStatusComposition hassLightOff
      (updateEntities hassLightOff cfgA)).2.2.1
    (by
      intro ls hls
      have hval : getState hassLightOff
          (updateEntities hassLightOff cfgA).light
          = some { state := "off" } := by decide
      have hls2 := Option.some.inj (hval.symm.trans hls)
      rw [← hls2]
      decide)

/-- C8: setting any single show_* flag to false yields exactly the
rendering with that flag true with the corresponding section replaced by
the empty render, while the header and every other section are
untouched, whatever the underlying entity state (the entity record is
recomputed from the modified configuration on both sides). -/
theorem showFlagFrame (a : FaceAssets) (h : Hass) (c : RemiCardConfig) :
    renderCard a h { c with show_face_selector := false }
        (updateEntities h { c with show_face_selector := false })
      = { renderCard a h { c with show_face_selector := true }
            (updateEntities h { c with show_face_selector := true })
          with faceSelector := none } ∧
    renderCard a h { c with show_controls := false }
        (updateEntities h { c with show_controls := false })
      = { renderCard a h { c with show_controls := true }
            (updateEntities h { c with show_controls := true })
          with lightControls := none } ∧
    renderCard a h { c with show_alarm_clocks := false }
        (updateEntities h { c with show_alarm_clocks := false })
      = { renderCard a h { c with show_alarm_clocks := true }
            (updateEntities h { c with show_alarm_clocks := true })
          with alarmClocks := none } ∧
    renderCard a h { c with show_temperature_graph := false }
        (updateEntities h { c with show_temperature_graph := false })
      = { renderCard a h { c with show_temperature_graph := true }
            (updateEntities h { c with show_temperature_graph := true })
          with temperatureGraph := none } ∧
    renderCard a h { c with show_connectivity := false }
        (updateEntities h { c with show_connectivity := false })
      = { renderCard a h { c with show_connectivity := true }
            (updateEntities h { c with show_connectivity := true })
          with connectivity := none } :=
  ⟨rfl, rfl, rfl, rfl, rfl⟩
